import Mathlib

/-!
Verification of the company-verification MCP pipeline (`src/main.py`).

The development shallowly embeds the two core pieces of the repository:

* `MCPServerStdio` — the stdio JSON-RPC client (request-id assignment,
  tool-list caching, response decoding in `_send_request`, and the
  content-envelope normalisation performed inside `call_tool`);
* `CompanyVerificationWorkflow` — the search → extract → crawl → verify
  orchestrator (`run_complete_workflow` and its stage parsers).

Python values flowing through the code are JSON-like; they are embedded
as the inductive `Json` below, together with Python truthiness, `len`,
dictionary membership, `dict.get`, and iteration semantics.  Exceptions
are embedded as `Except PyErr`; code regions guarded by `try/except` in
the source are folded into total functions (the caught exception leaves
the state as it was at the raise point, exactly as in Python), while
code outside any `try` block propagates errors monadically.

`json.loads` (an external library function) is kept abstract: every
definition that needs it takes a decoder `jl : String → Except String Json`
as a parameter; an error models `json.JSONDecodeError` with its message.
-/

/-- JSON-like Python values (None / bool / int / str / list / dict). -/
inductive Json where
  | null
  | bool (b : Bool)
  | num (n : Int)
  | str (s : String)
  | arr (xs : List Json)
  | obj (kvs : List (String × Json))

/-- Python exception classes raised by the embedded code. -/
inductive PyErr where
  | attributeError (msg : String)
  | typeError (msg : String)
  | exception (msg : String)

/-- A JSON decoder standing in for Python's `json.loads`;
an `error` models `json.JSONDecodeError` carrying its message. -/
def JDecoder : Type := String → Except String Json

/-- Python truthiness (`bool(x)`) on JSON-like values. -/
def Json.truthy : Json → Bool
  | .null => false
  | .bool b => b
  | .num n => n != 0
  | .str s => !s.isEmpty
  | .arr xs => !xs.isEmpty
  | .obj kvs => !kvs.isEmpty

/-- Python `len(x)`: defined for str/list/dict, `none` models `TypeError`. -/
def Json.pyLen : Json → Option Nat
  | .str s => some s.length
  | .arr xs => some xs.length
  | .obj kvs => some kvs.length
  | _ => none

/-- First binding of a key in a dict's entry list. -/
def jlookup (k : String) : List (String × Json) → Option Json
  | [] => none
  | (k1, v) :: rest => if k1 = k then some v else jlookup k rest

/-- Dict key membership (`k in d` for a Python dict). -/
def hasKeyL (kvs : List (String × Json)) (k : String) : Bool :=
  (jlookup k kvs).isSome

/-- Python `d.get(k, default)` on a value known to be a dict. -/
def jgetD (kvs : List (String × Json)) (k : String) (d : Json) : Json :=
  (jlookup k kvs).getD d

/-- Python `x.get(k, default)` on an arbitrary value: an `AttributeError`
is raised when `x` is not a dict. -/
def pyGet (j : Json) (k : String) (d : Json) : Except PyErr Json :=
  match j with
  | .obj kvs => .ok (jgetD kvs k d)
  | _ => .error (.attributeError "object has no attribute get")

/-- Python `x == "lit"` for a string literal: true only for the equal str. -/
def Json.eqStr : Json → String → Bool
  | .str s, t => s == t
  | _, _ => false

/-- Python `for x in j`: lists yield elements, strings yield 1-char strings,
dicts yield their keys; other values raise `TypeError`. -/
def pyIter : Json → Except PyErr (List Json)
  | .arr xs => .ok xs
  | .str s => .ok (s.data.map fun c => .str (String.mk [c]))
  | .obj kvs => .ok (kvs.map fun kv => .str kv.1)
  | _ => .error (.typeError "object is not iterable")

/-- `needle` matches at the head of `hay`. -/
def matchesAt : List Char → List Char → Bool
  | [], _ => true
  | _ :: _, [] => false
  | a :: as, b :: bs => a == b && matchesAt as bs

/-- `needle` occurs somewhere in `hay`. -/
def findSub (needle hay : List Char) : Bool :=
  match hay with
  | [] => needle.isEmpty
  | _ :: t => matchesAt needle hay || findSub needle t

/-- Python `needle in hay` on strings (substring containment). -/
def strContains (hay needle : String) : Bool :=
  findSub needle.data hay.data

/-- Python `s.lower()` (ASCII case folding, as in the urls at hand). -/
def strLower (s : String) : String :=
  String.mk (s.data.map Char.toLower)

example : strContains "https://linkedin.com/company/x" "linkedin.com/company/" = true := by
  decide

example : strContains "linkedin.com/in/acme" "linkedin.com/company/" = false := by
  decide

/-!
## The stdio MCP client (`MCPServerStdio`)

`call_tool` normalisation (main.py lines 173–186), `_send_request`'s
response handling (lines 99–137), and the request-id / tool-cache state
machine across `_initialize` / `list_tools` / `call_tool` /
`invalidate_tools_cache`.
-/

/-- Scan of the `content` part list inside `call_tool` (main.py 177–184):
the first dict entry whose `type` equals `"text"` and whose `text` is
truthy is returned — JSON-decoded when the text is a string that parses,
the raw value otherwise (the bare `except` turns any decode failure,
including `TypeError` on a non-string, into returning the raw value).
`none` means the loop fell through without returning. -/
def scanContent (jl : JDecoder) : List Json → Option Json
  | [] => none
  | item :: rest =>
    match item with
    | .obj kvs =>
      if Json.eqStr (jgetD kvs "type" .null) "text" then
        let text := jgetD kvs "text" (.str "")
        if text.truthy then
          some (match text with
                | .str s => (match jl s with | .ok v => v | .error _ => .str s)
                | t => t)
        else scanContent jl rest
      else scanContent jl rest
    | _ => scanContent jl rest

/-- The result normalisation performed by `call_tool` (main.py 173–186):
unwraps a non-empty `content` envelope, otherwise returns the result
unchanged. -/
def normalize_result (jl : JDecoder) (result : Json) : Json :=
  match result with
  | .obj kvs =>
    if hasKeyL kvs "content" then
      match jgetD kvs "content" (.arr []) with
      | .arr items =>
        if items.length > 0 then
          match scanContent jl items with
          | some v => v
          | none => result
        else result
      | _ => result
    else result
  | _ => result

/-- Modelled from the spec (§4.3 ToolResultNormalizer), to be compared
with `normalize_result`: "If the result is a mapping containing a
`content` key whose value is a non-empty ordered sequence, scan for
entries of kind "text"; for the first such entry with non-empty text,
attempt to interpret the text as JSON and return the decoded value,
otherwise return the raw text unchanged.  If no such entry exists,
return the result unchanged." -/
def firstTextPayload : List Json → Option Json
  | [] => none
  | item :: rest =>
    match item with
    | .obj kvs =>
      if Json.eqStr (jgetD kvs "type" .null) "text"
          && (jgetD kvs "text" (.str "")).truthy then
        some (jgetD kvs "text" (.str ""))
      else firstTextPayload rest
    | _ => firstTextPayload rest

/-- Spec-side decode of a selected text payload: the JSON-decoded value
when it parses, the raw text otherwise. -/
def decodeOrRaw (jl : JDecoder) (t : Json) : Json :=
  match t with
  | .str s => (match jl s with | .ok v => v | .error _ => .str s)
  | t => t

/-- Spec-side normaliser (see `firstTextPayload`). -/
def normalizeSpec (jl : JDecoder) (result : Json) : Json :=
  match result with
  | .obj kvs =>
    match jlookup "content" kvs with
    | some (.arr (i :: is)) =>
      match firstTextPayload (i :: is) with
      | some t => decodeOrRaw jl t
      | none => result
    | _ => result
  | _ => result

/-- Outcome of `readline` inside `_send_request`: a timeout, an empty
line (EOF), or a raw response line. -/
inductive ReadOutcome where
  | timeout
  | eof
  | line (s : String)

/-- Python `j in x` for string `j` (dict: key membership; list: element
equality; str: substring; otherwise `TypeError`). -/
def pyContainsStr (x : Json) (needle : String) : Except PyErr Bool :=
  match x with
  | .obj kvs => .ok (hasKeyL kvs needle)
  | .arr xs => .ok (xs.any (fun v => Json.eqStr v needle))
  | .str s => .ok (strContains s needle)
  | _ => .error (.typeError "argument is not iterable")

/-- Python `x[k]` for a string key (dict lookup; other types raise). -/
def pyIndexStr (x : Json) (k : String) : Except PyErr Json :=
  match x with
  | .obj kvs =>
    match jlookup k kvs with
    | some v => .ok v
    | none => .error (.exception "KeyError")
  | _ => .error (.typeError "indices must be integers")

/-- Rough rendering of a JSON value for f-string interpolation (stands in
for Python `str()` in the raised messages; none of the theorems below
depend on its exact output). -/
def Json.render : Json → String
  | .null => "None"
  | .bool b => if b then "True" else "False"
  | .num n => toString n
  | .str s => s
  | .arr _ => "[...]"
  | .obj _ => "{...}"

/-- Response handling of `_send_request` (main.py 99–137): empty line
and timeout raise `Exception`s with fixed messages; a line that fails to
JSON-decode raises `Exception` with the decoder's message interpolated
(the raw line is only logged); a well-formed frame with an `error`
member raises `Exception`; otherwise `response.get("result")` is
returned.  The generic `except Exception` at line 131 logs and
re-raises, so every raise propagates unchanged. -/
def sendRecv (jl : JDecoder) (r : ReadOutcome) : Except PyErr Json :=
  match r with
  | .timeout => .error (.exception "等待MCP服务器响应超时")
  | .eof => .error (.exception "空响应，可能是Node.js子进程没有输出")
  | .line s =>
    match jl s with
    | .error e => .error (.exception ("无法解析JSON响应: " ++ e))
    | .ok resp =>
      match pyContainsStr resp "error" with
      | .error e => .error e
      | .ok true =>
        match pyIndexStr resp "error" with
        | .error e => .error e
        | .ok v => .error (.exception ("MCP服务器错误: " ++ v.render))
      | .ok false =>
        match resp with
        | .obj kvs => .ok (jgetD kvs "result" .null)
        | _ => .error (.attributeError "object has no attribute get")

/-- Client-side state of `MCPServerStdio`: whether tool listing is
cached, the cache value (`None` initially), the next request id, and
whether the handshake has run. -/
structure ClientState where
  cacheToolsList : Bool
  toolsCache : Json
  nextRequestId : Nat
  started : Bool

/-- Fresh client state (`__init__`, main.py 19–33). -/
def initClient (cache : Bool) : ClientState :=
  { cacheToolsList := cache, toolsCache := .null, nextRequestId := 1, started := false }

/-- A client session together with its observable I/O: the number of RPC
round trips performed and the request ids sent, in order. -/
structure Sys where
  client : ClientState
  rpcCount : Nat
  sentIds : List Nat

/-- Fresh session. -/
def initSys (cache : Bool) : Sys :=
  { client := initClient cache, rpcCount := 0, sentIds := [] }

/-- One `_send_request` round trip: the server is an oracle mapping the
round-trip index to the decoded result. -/
def sendOn (server : Nat → Json) (id : Nat) (sys : Sys) : Json × Sys :=
  (server sys.rpcCount,
   { sys with rpcCount := sys.rpcCount + 1, sentIds := sys.sentIds ++ [id] })

/-- The client operations a caller can invoke in a session. -/
inductive COp where
  | handshakeOp
  | listToolsOp
  | callToolOp (name : String) (args : Json)
  | invalidateOp

/-- One client operation (`_initialize` 61–88, `list_tools` 139–156,
`call_tool` 158–169, `invalidate_tools_cache` 188–190): each request
consumes the next id (incremented before the send); `list_tools` serves
from the cache when caching is on and the cached value is truthy, and
stores the fresh result when caching is on; the handshake is a no-op
once performed.  (`call_tool` additionally normalises the returned
payload via `normalize_result`; the payload does not affect the session
state.) -/
def stepOp (server : Nat → Json) (sys : Sys) : COp → Sys
  | .handshakeOp =>
    if sys.client.started then sys
    else
      let id := sys.client.nextRequestId
      let sys1 := { sys with client := { sys.client with nextRequestId := id + 1 } }
      let s2 := (sendOn server id sys1).2
      { s2 with client := { s2.client with started := true } }
  | .listToolsOp =>
    if sys.client.cacheToolsList && sys.client.toolsCache.truthy then sys
    else
      let id := sys.client.nextRequestId
      let sys1 := { sys with client := { sys.client with nextRequestId := id + 1 } }
      let rs := sendOn server id sys1
      if rs.2.client.cacheToolsList then
        { rs.2 with client := { rs.2.client with toolsCache := rs.1 } }
      else rs.2
  | .callToolOp _ _ =>
    let id := sys.client.nextRequestId
    let sys1 := { sys with client := { sys.client with nextRequestId := id + 1 } }
    (sendOn server id sys1).2
  | .invalidateOp => { sys with client := { sys.client with toolsCache := .null } }

/-- A sequence of client operations from a given session state. -/
def runOps (server : Nat → Json) (ops : List COp) (sys : Sys) : Sys :=
  ops.foldl (stepOp server) sys

/-!
## The verification workflow (`CompanyVerificationWorkflow`)

Per-run state, the three stage parsers (each one the body of the
stage's `try/except Exception` block, hence total), the LinkedIn URL
extraction and page filtering (which run outside any `try` and can
raise), and `run_complete_workflow`.
-/

/-- Mutable per-instance state of `CompanyVerificationWorkflow`: the
three accumulated result values (set from whole response fields, so any
JSON value) and the four verify-stage aggregates. -/
structure WfState where
  search_results : Json
  crawl_results : Json
  verify_results : Json
  best_match : Json
  linkedin_url : Json
  linkedin_found : Json
  match_count : Json

/-- `__init__` (main.py 199–204): the three result lists start empty
(the aggregates are not assigned until a run; their initial values here
are irrelevant because `run_complete_workflow` resets them first). -/
def initWf : WfState :=
  { search_results := .arr [], crawl_results := .arr [], verify_results := .arr []
    best_match := .null, linkedin_url := .null, linkedin_found := .bool false
    match_count := .num 0 }

/-- The reset performed at the top of `run_complete_workflow`
(main.py 380–384): only the four aggregates are reset — the three
accumulated result values are left as they are. -/
def resetAggr (st : WfState) : WfState :=
  { st with best_match := .null, linkedin_url := .null,
            linkedin_found := .bool false, match_count := .num 0 }

/-- Search-response interpretation (main.py 212–234, the whole
`try/except Exception` block of `execute_search`): a dict containing
both `success` and `results` keys stores the `results` value; a string
is JSON-decoded and, when it decodes to a dict with truthy `success`
and a `results` key, that value is stored; every other shape (and every
exception inside the block, e.g. `len()` on an unsized value, or
`.get` on a non-dict decode) leaves the state unchanged past the point
already reached. -/
def search_parse (jl : JDecoder) (result : Json) (st : WfState) : WfState :=
  match result with
  | .obj kvs =>
    if hasKeyL kvs "success" && hasKeyL kvs "results" then
      { st with search_results := jgetD kvs "results" (.arr []) }
    else st
  | .str s =>
    match jl s with
    | .ok (.obj kvs) =>
      if (jgetD kvs "success" .null).truthy && hasKeyL kvs "results" then
        { st with search_results := jgetD kvs "results" .null }
      else st
    | _ => st
  | _ => st

/-- Crawl-response interpretation (main.py 260–295): like
`search_parse` but also accepting the legacy `pages` field, in both the
dict and the string-encoded shapes. -/
def crawl_parse (jl : JDecoder) (result : Json) (st : WfState) : WfState :=
  match result with
  | .obj kvs =>
    if hasKeyL kvs "success" && hasKeyL kvs "results" then
      { st with crawl_results := jgetD kvs "results" (.arr []) }
    else if hasKeyL kvs "success" && hasKeyL kvs "pages" then
      { st with crawl_results := jgetD kvs "pages" (.arr []) }
    else st
  | .str s =>
    match jl s with
    | .ok (.obj kvs) =>
      if (jgetD kvs "success" .null).truthy && hasKeyL kvs "results" then
        { st with crawl_results := jgetD kvs "results" .null }
      else if (jgetD kvs "success" .null).truthy && hasKeyL kvs "pages" then
        { st with crawl_results := jgetD kvs "pages" .null }
      else st
    | _ => st
  | _ => st

/-- Verify-response interpretation (main.py 328–375): the `results`
shape stores `verify_results` and then — only when the logged
`len(self.verify_results)` does not raise — the four aggregates
(`best_match`, `linkedin_url`, the `linkedin` flag, `match_count`);
the legacy `verifications` shape stores only `verify_results`. -/
def verify_parse (jl : JDecoder) (result : Json) (st : WfState) : WfState :=
  match result with
  | .obj kvs =>
    if hasKeyL kvs "success" && hasKeyL kvs "results" then
      let vr := jgetD kvs "results" (.arr [])
      let st1 := { st with verify_results := vr }
      match vr.pyLen with
      | none => st1
      | some _ =>
        { st1 with best_match := jgetD kvs "best_match" .null
                   linkedin_url := jgetD kvs "linkedin_url" .null
                   linkedin_found := jgetD kvs "linkedin" (.bool false)
                   match_count := jgetD kvs "match_count" (.num 0) }
    else if hasKeyL kvs "success" && hasKeyL kvs "verifications" then
      { st with verify_results := jgetD kvs "verifications" (.arr []) }
    else st
  | .str s =>
    match jl s with
    | .ok (.obj kvs) =>
      if (jgetD kvs "success" .null).truthy && hasKeyL kvs "results" then
        let vr := jgetD kvs "results" .null
        let st1 := { st with verify_results := vr }
        match vr.pyLen with
        | none => st1
        | some _ =>
          { st1 with best_match := jgetD kvs "best_match" .null
                     linkedin_url := jgetD kvs "linkedin_url" .null
                     linkedin_found := jgetD kvs "linkedin" (.bool false)
                     match_count := jgetD kvs "match_count" (.num 0) }
      else if (jgetD kvs "success" .null).truthy && hasKeyL kvs "verifications" then
        { st with verify_results := jgetD kvs "verifications" .null }
      else st
    | _ => st
  | _ => st

/-- Body of the loop in `extract_linkedin_urls` (main.py 240–244):
`result.get("url", "")` raises on a non-dict entry, `.lower()` raises
on a non-string url; matching urls are appended in order. -/
def extractGo : List Json → Except PyErr (List String)
  | [] => .ok []
  | r :: rest => do
    let u ← pyGet r "url" (.str "")
    match u with
    | .str s =>
      if strContains (strLower s) "linkedin.com/company/" then
        let tail ← extractGo rest
        .ok (s :: tail)
      else extractGo rest
    | _ => .error (.attributeError "object has no attribute lower")

/-- `extract_linkedin_urls` (main.py 237–248), run on the accumulated
`search_results` value.  It runs outside any `try` block, so its
exceptions propagate out of `run_complete_workflow`. -/
def extract_linkedin_urls (j : Json) : Except PyErr (List String) := do
  let items ← pyIter j
  extractGo items

/-- Body of the page-filtering loop in `execute_verify`
(main.py 305–311): keeps `{url, content}` for each dict entry with
truthy `content` and truthy `url` (`content` checked first, as the
Python `and` short-circuits); non-dict entries raise. -/
def buildGo : List Json → Except PyErr (List Json)
  | [] => .ok []
  | p :: rest => do
    let c ← pyGet p "content" .null
    if c.truthy then
      let u ← pyGet p "url" .null
      if u.truthy then
        let tail ← buildGo rest
        .ok (.obj [("url", u), ("content", c)] :: tail)
      else buildGo rest
    else buildGo rest

/-- The page list built from `crawl_results` before calling the verify
tool; runs outside any `try` block. -/
def buildPages (j : Json) : Except PyErr (List Json) := do
  let items ← pyIter j
  buildGo items

/-- The environment's answers for one workflow run: what `call_tool`
returns (already normalised) for each of the three tools, or the
exception `call_tool` itself raised. -/
structure Oracle where
  search : Except PyErr Json
  crawl : Except PyErr Json
  verify : Except PyErr Json

/-- `execute_crawl` (main.py 250–296): with no URLs the tool is not
called and the literal `{"crawl_results": []}` is returned (the
accumulated `crawl_results` is left untouched); otherwise the tool is
called and its response parsed.  The returned trace lists the tools
called. -/
def execute_crawl (jl : JDecoder) (oracle : Oracle) (urls : List String)
    (st : WfState) : Except PyErr (WfState × Json × List String) :=
  if urls.isEmpty then .ok (st, .obj [("crawl_results", .arr [])], [])
  else
    match oracle.crawl with
    | .error e => .error e
    | .ok r =>
      let st1 := crawl_parse jl r st
      .ok (st1, .obj [("crawl_results", st1.crawl_results)], ["crawl_multiple_pages"])

/-- `execute_verify` (main.py 298–376): skipped (tool not called,
literal empty list returned) when the accumulated `crawl_results` is
falsy or when page filtering leaves nothing; otherwise the tool is
called and its response parsed. -/
def execute_verify (jl : JDecoder) (oracle : Oracle) (st : WfState) :
    Except PyErr (WfState × Json × List String) :=
  if !st.crawl_results.truthy then .ok (st, .obj [("verify_results", .arr [])], [])
  else
    match buildPages st.crawl_results with
    | .error e => .error e
    | .ok pages =>
      if pages.isEmpty then .ok (st, .obj [("verify_results", .arr [])], [])
      else
        match oracle.verify with
        | .error e => .error e
        | .ok r =>
          let st1 := verify_parse jl r st
          .ok (st1, .obj [("verify_results", st1.verify_results)], ["verify_multiple_contents"])

/-- Python `match_count > 0` (main.py 404): defined for ints and bools
(`True > 0` is `True`), `TypeError` otherwise. -/
def pyGtZero : Json → Except PyErr Json
  | .num n => .ok (.bool (0 < n))
  | .bool b => .ok (.bool b)
  | _ => .error (.typeError "not supported between instances")

/-- Python `self.linkedin_found and self.match_count > 0`: returns the
first operand when it is falsy, otherwise evaluates the comparison. -/
def pySuccess (lf mc : Json) : Except PyErr Json :=
  if lf.truthy then pyGtZero mc else .ok lf

/-- The optional `official_website` entry (main.py 407–408). -/
def webPart : Option String → List (String × Json)
  | some w => [("official_website", .str w)]
  | none => []

/-- Assembly of the final result dict (main.py 399–420): the five base
keys, then `official_website` when provided, then the three
LinkedIn keys when `linkedin_found` is truthy, then `best_match` when
truthy. -/
def assemble (company : String) (web : Option String)
    (searchRet crawlRet verifyRet : Json) (st : WfState) : Except PyErr Json :=
  match pySuccess st.linkedin_found st.match_count with
  | .error e => .error e
  | .ok success =>
    .ok (.obj
      ([("company_name", .str company), ("search", searchRet),
        ("crawl", crawlRet), ("verify", verifyRet), ("success", success)]
       ++ webPart web
       ++ (if st.linkedin_found.truthy then
             [("linkedin_found", .bool true), ("linkedin_url", st.linkedin_url),
              ("match_count", st.match_count)]
           else [])
       ++ (if st.best_match.truthy then [("best_match", st.best_match)] else [])))

/-- `run_complete_workflow` (main.py 378–420): reset the aggregates,
run search (a `call_tool` failure propagates), extract candidate URLs
(may raise), crawl, verify, and assemble the final dict (the `success`
comparison may raise).  Returns the final dict, the final instance
state, and the trace of tools called. -/
def run_complete_workflow (jl : JDecoder) (oracle : Oracle) (company : String)
    (web : Option String) (st0 : WfState) :
    Except PyErr (Json × WfState × List String) :=
  let st := resetAggr st0
  match oracle.search with
  | .error e => .error e
  | .ok sres =>
    let st1 := search_parse jl sres st
    let searchRet := Json.obj [("search_results", st1.search_results)]
    match extract_linkedin_urls st1.search_results with
    | .error e => .error e
    | .ok urls =>
      match execute_crawl jl oracle urls st1 with
      | .error e => .error e
      | .ok (st2, crawlRet, tr2) =>
        match execute_verify jl oracle st2 with
        | .error e => .error e
        | .ok (st3, verifyRet, tr3) =>
          match assemble company web searchRet crawlRet verifyRet st3 with
          | .error e => .error e
          | .ok res => .ok (res, st3, "search_company" :: (tr2 ++ tr3))

/-!
## Concrete fixtures

A concrete decoder and concrete responses used by the witness and
counterexample theorems below.  `jl0` rejects every line, the way
`json.loads` rejects non-JSON input; `jlFix` decodes two fixed
(symbolically named) lines to a crawl response in each of the two field
shapes.
-/

/-- A decoder rejecting every input line. -/
def jl0 : JDecoder := fun _ => .error "Expecting value: line 1 column 1 (char 0)"

/-- One crawled page, `url` u1 / `content` c1. -/
def pageU1 : Json := .obj [("url", .str "u1"), ("content", .str "c1")]

/-- A decoder mapping two symbolic lines to the crawl response in the
`results` shape and in the legacy `pages` shape. -/
def jlFix : JDecoder := fun s =>
  if s = "resp-results" then
    .ok (.obj [("success", .bool true), ("results", .arr [pageU1])])
  else if s = "resp-pages" then
    .ok (.obj [("success", .bool true), ("pages", .arr [pageU1])])
  else .error "Expecting value: line 1 column 1 (char 0)"

/-!
## Claim C6 — `call_tool` result normalisation
-/

/-- The `call_tool` content scan returns exactly the first text part
selected by the spec-side scan, decoded. -/
theorem scanContent_eq_firstTextPayload (jl : JDecoder) (l : List Json) :
    scanContent jl l = (firstTextPayload l).map (decodeOrRaw jl) := by
  induction l with
  | nil => rfl
  | cons item rest ih =>
    cases item with
    | obj kvs =>
      by_cases h1 : Json.eqStr (jgetD kvs "type" .null) "text" = true
      · by_cases h2 : (jgetD kvs "text" (.str "")).truthy = true
        · simp only [scanContent, firstTextPayload, h1, h2, Bool.and_self, if_true,
            Option.map_some]
          cases jgetD kvs "text" (.str "") <;> simp [decodeOrRaw]
        · simp only [scanContent, firstTextPayload, h1, h2, Bool.and_false, if_true,
            if_false, Bool.false_eq_true] at ih ⊢
          simpa [h2] using ih
      · simp only [scanContent, firstTextPayload, h1] at ih ⊢
        simpa [h1] using ih
    | null => simpa [scanContent, firstTextPayload] using ih
    | bool b => simpa [scanContent, firstTextPayload] using ih
    | num n => simpa [scanContent, firstTextPayload] using ih
    | str s => simpa [scanContent, firstTextPayload] using ih
    | arr xs => simpa [scanContent, firstTextPayload] using ih

/-- C6: for every decoded RPC result, the normaliser applied by
`call_tool` behaves exactly as specified: a mapping whose `content`
value is a non-empty sequence yields, for the first entry of type
`"text"` with non-empty text, the JSON-decoded value of that text when
it parses and the raw text otherwise; any other result (including one
with no such entry) is returned unchanged.  Stated as equality with the
spec-side normaliser `normalizeSpec`. -/
theorem c6_call_tool_normalizes (jl : JDecoder) (result : Json) :
    normalize_result jl result = normalizeSpec jl result := by
  cases result with
  | obj kvs =>
    cases h : jlookup "content" kvs with
    | none => simp [normalize_result, normalizeSpec, hasKeyL, h, jgetD]
    | some v =>
      cases v with
      | arr items =>
        cases items with
        | nil => simp [normalize_result, normalizeSpec, hasKeyL, h, jgetD]
        | cons i is =>
          simp only [normalize_result, normalizeSpec, hasKeyL, h, jgetD,
            Option.isSome_some, Option.getD_some, List.length_cons, if_true,
            Nat.succ_sub_one, scanContent_eq_firstTextPayload]
          cases firstTextPayload (i :: is) <;> simp
      | null => simp [normalize_result, normalizeSpec, hasKeyL, h, jgetD]
      | bool b => simp [normalize_result, normalizeSpec, hasKeyL, h, jgetD]
      | num n => simp [normalize_result, normalizeSpec, hasKeyL, h, jgetD]
      | str s => simp [normalize_result, normalizeSpec, hasKeyL, h, jgetD]
      | obj kvs2 => simp [normalize_result, normalizeSpec, hasKeyL, h, jgetD]
  | null => rfl
  | bool b => rfl
  | num n => rfl
  | str s => rfl
  | arr xs => rfl

/-!
## Claim C7 — invalid-JSON response lines
-/

/-- C7 counterexample: on a response line that is not valid JSON,
`_send_request` raises the same generic `Exception` class used for
timeouts (no distinct `ProtocolError`), and its payload carries the
decoder's message, not the offending raw line: for the line
`oops not json`, the raised message does not contain that line. -/
theorem c7_counterexample :
    sendRecv jl0 (.line "oops not json") =
      .error (.exception
        "无法解析JSON响应: Expecting value: line 1 column 1 (char 0)") ∧
    strContains "无法解析JSON响应: Expecting value: line 1 column 1 (char 0)"
      "oops not json" = false ∧
    sendRecv jl0 .timeout = .error (.exception "等待MCP服务器响应超时") := by
  refine ⟨rfl, by decide, rfl⟩

/-- C7 amended: a response line that fails to JSON-decode raises a
generic `Exception` whose message embeds the decoder's error
description (the raw line is only logged, not carried in the payload);
timeouts and empty responses raise the same `Exception` class with
different fixed messages, so the three cases are distinguished only by
message text. -/
theorem c7_decode_error_shape (jl : JDecoder) (s e : String)
    (h : jl s = .error e) :
    sendRecv jl (.line s) = .error (.exception ("无法解析JSON响应: " ++ e)) ∧
    sendRecv jl .timeout = .error (.exception "等待MCP服务器响应超时") ∧
    sendRecv jl .eof = .error (.exception "空响应，可能是Node.js子进程没有输出") := by
  refine ⟨?_, rfl, rfl⟩
  simp [sendRecv, h]

/-- Witness for `c7_decode_error_shape` at the concrete decoder `jl0`
and the line `oops`. -/
theorem c7_decode_error_shape_witness :
    jl0 "oops" = .error "Expecting value: line 1 column 1 (char 0)" ∧
    sendRecv jl0 (.line "oops") =
      .error (.exception
        ("无法解析JSON响应: " ++ "Expecting value: line 1 column 1 (char 0)")) :=
  ⟨rfl, (c7_decode_error_shape jl0 "oops" _ rfl).1⟩

/-!
## Claim C8 — tool-list caching
-/

/-- C8 counterexample: with caching enabled, when the first listing's
result is falsy (here the empty dict), the cache test
`self.cache_tools_list and self._tools_cache` fails and the second
consecutive `list_tools` call performs a second RPC round trip — not
exactly one. -/
theorem c8_counterexample :
    (runOps (fun _ => Json.obj []) [COp.listToolsOp, COp.listToolsOp]
      (initSys true)).rpcCount = 2 ∧
    (runOps (fun _ => Json.obj []) [COp.listToolsOp, COp.listToolsOp]
      (initSys true)).rpcCount ≠ 1 := by
  exact ⟨rfl, by decide⟩

/-- The initial tool cache (`None`) is falsy. -/
theorem truthy_null : Json.null.truthy = false := rfl

/-- C8 amended: with caching enabled and a truthy (non-empty) first
listing result, two consecutive `list_tools` calls perform exactly one
RPC round trip (the second is served from the cache), and
`invalidate_tools_cache` followed by a third call performs exactly one
more. -/
theorem c8_cache_roundtrips (server : Nat → Json)
    (h : (server 0).truthy = true) :
    (runOps server [COp.listToolsOp] (initSys true)).rpcCount = 1 ∧
    (runOps server [COp.listToolsOp, COp.listToolsOp] (initSys true)).rpcCount = 1 ∧
    (runOps server [COp.listToolsOp, COp.listToolsOp, COp.invalidateOp,
      COp.listToolsOp] (initSys true)).rpcCount = 2 := by
  refine ⟨rfl, ?_, ?_⟩ <;>
    simp [runOps, stepOp, sendOn, initSys, initClient, h, truthy_null]

/-- Witness for `c8_cache_roundtrips` at a server answering a non-empty
tool listing. -/
theorem c8_cache_roundtrips_witness :
    ((fun _ => Json.obj [("tools", Json.arr [])]) 0 : Json).truthy = true ∧
    (runOps (fun _ => Json.obj [("tools", Json.arr [])])
      [COp.listToolsOp, COp.listToolsOp] (initSys true)).rpcCount = 1 ∧
    (runOps (fun _ => Json.obj [("tools", Json.arr [])])
      [COp.listToolsOp, COp.listToolsOp, COp.invalidateOp, COp.listToolsOp]
      (initSys true)).rpcCount = 2 :=
  ⟨rfl, (c8_cache_roundtrips (fun _ => Json.obj [("tools", Json.arr [])]) rfl).2.1,
   (c8_cache_roundtrips (fun _ => Json.obj [("tools", Json.arr [])]) rfl).2.2⟩

/-!
## Claim C9 — request ids strictly increase
-/

/-- Invariant carried through a client session: the sent request ids
are pairwise strictly increasing, and all are below the next id. -/
def sentOk (sys : Sys) : Prop :=
  List.Pairwise (· < ·) sys.sentIds ∧
    ∀ i ∈ sys.sentIds, i < sys.client.nextRequestId

/-- Appending the next id keeps the id list strictly increasing. -/
theorem append_id_ok (l : List Nat) (n : Nat)
    (hp : List.Pairwise (· < ·) l) (hb : ∀ i ∈ l, i < n) :
    List.Pairwise (· < ·) (l ++ [n]) ∧ ∀ i ∈ l ++ [n], i < n + 1 := by
  constructor
  · refine List.pairwise_append.mpr ⟨hp, List.pairwise_singleton _ _, ?_⟩
    intro a ha b hb2
    simp only [List.mem_singleton] at hb2
    subst hb2
    exact hb a ha
  · intro i hi
    rcases List.mem_append.mp hi with hl | hr
    · exact Nat.lt_succ_of_lt (hb i hl)
    · simp only [List.mem_singleton] at hr
      omega

/-- Every client operation preserves `sentOk`. -/
theorem stepOp_sentOk (server : Nat → Json) (sys : Sys) (op : COp)
    (h : sentOk sys) : sentOk (stepOp server sys op) := by
  obtain ⟨hp, hb⟩ := h
  cases op with
  | handshakeOp =>
    by_cases hi : sys.client.started
    · simpa [stepOp, hi] using ⟨hp, hb⟩
    · have := append_id_ok sys.sentIds sys.client.nextRequestId hp hb
      simpa [stepOp, hi, sendOn, sentOk] using this
  | listToolsOp =>
    by_cases hc : (sys.client.cacheToolsList && sys.client.toolsCache.truthy) = true
    · simpa [stepOp, hc] using ⟨hp, hb⟩
    · have happ := append_id_ok sys.sentIds sys.client.nextRequestId hp hb
      by_cases hcl : sys.client.cacheToolsList = true
      · have htc : sys.client.toolsCache.truthy = false := by
          by_cases h0 : sys.client.toolsCache.truthy = true
          · exact absurd (by simp [hcl, h0]) hc
          · exact Bool.eq_false_iff.mpr h0
        simpa [stepOp, hcl, htc, sendOn, sentOk] using happ
      · have hcl2 : sys.client.cacheToolsList = false :=
          Bool.eq_false_iff.mpr hcl
        simpa [stepOp, hcl2, sendOn, sentOk] using happ
  | callToolOp name args =>
    have := append_id_ok sys.sentIds sys.client.nextRequestId hp hb
    simpa [stepOp, sendOn, sentOk] using this
  | invalidateOp => simpa [stepOp, sentOk] using ⟨hp, hb⟩

/-- C9: in every client session, whatever sequence of handshake /
list-tools / call-tool / invalidate operations is performed, the
request ids actually sent form a strictly increasing sequence — ids are
assigned solely by the client and never reused. -/
theorem c9_ids_strictly_increasing (server : Nat → Json) (cache : Bool)
    (ops : List COp) :
    List.Pairwise (· < ·) ((runOps server ops (initSys cache)).sentIds) := by
  have main : ∀ (l : List COp) (sys : Sys), sentOk sys → sentOk (runOps server l sys) := by
    intro l
    induction l with
    | nil => intro sys h; exact h
    | cons op rest ih =>
      intro sys h
      exact ih _ (stepOp_sentOk server sys op h)
  refine (main ops (initSys cache) ⟨List.Pairwise.nil, ?_⟩).1
  intro i hi
  simp [initSys] at hi

/-!
## Claim C5 — LinkedIn URL extraction
-/

/-- The url string of a search-result entry (`result.get("url", "")`),
for entries that are dicts with a string (or absent) url. -/
def urlStrD (r : Json) : String :=
  match r with
  | .obj kvs => (match jgetD kvs "url" (.str "") with | .str s => s | _ => "")
  | _ => ""

/-- The selection test of `extract_linkedin_urls`: the lower-cased url
contains `linkedin.com/company/`. -/
def keepsUrl (r : Json) : Bool :=
  strContains (strLower (urlStrD r)) "linkedin.com/company/"

/-- C5: on every list of search results (dict entries whose `url`
value, when present, is a string), `extract_linkedin_urls` returns
exactly the urls of the entries whose lower-cased url contains
`linkedin.com/company/`, in their original order. -/
theorem c5_extract_filters (rs : List Json)
    (h : ∀ r ∈ rs, ∃ kvs s, r = Json.obj kvs ∧ jgetD kvs "url" (.str "") = .str s) :
    extract_linkedin_urls (.arr rs) = .ok ((rs.filter keepsUrl).map urlStrD) := by
  induction rs with
  | nil => rfl
  | cons r rest ih =>
    obtain ⟨kvs, s, rfl, hu⟩ := h r (List.mem_cons_self _ _)
    have ihr := ih (fun x hx => h x (List.mem_cons_of_mem _ hx))
    have hrest : extractGo rest = .ok ((rest.filter keepsUrl).map urlStrD) := by
      simpa [extract_linkedin_urls, pyIter, bind, Except.bind] using ihr
    have hk : keepsUrl (Json.obj kvs) = strContains (strLower s) "linkedin.com/company/" := by
      simp [keepsUrl, urlStrD, hu]
    by_cases hc : strContains (strLower s) "linkedin.com/company/" = true
    · simp [extract_linkedin_urls, pyIter, bind, Except.bind, extractGo, pyGet, hu, hc,
        hrest, List.filter_cons, hk, urlStrD]
    · simp [extract_linkedin_urls, pyIter, bind, Except.bind, extractGo, pyGet, hu, hc,
        hrest, List.filter_cons, hk]

/-- Witness for `c5_extract_filters`: the upper-cased company page
`HTTPS://LinkedIn.com/Company/acme` is kept, the personal profile
`linkedin.com/in/acme` is not. -/
theorem c5_extract_filters_witness :
    extract_linkedin_urls
      (.arr [Json.obj [("url", .str "HTTPS://LinkedIn.com/Company/acme")],
             Json.obj [("url", .str "linkedin.com/in/acme")]]) =
      .ok ["HTTPS://LinkedIn.com/Company/acme"] := by
  have happ := c5_extract_filters
    [Json.obj [("url", .str "HTTPS://LinkedIn.com/Company/acme")],
     Json.obj [("url", .str "linkedin.com/in/acme")]]
    (by
      intro r hr
      rcases List.mem_cons.mp hr with h1 | h1
      · exact ⟨_, "HTTPS://LinkedIn.com/Company/acme", h1, rfl⟩
      · rcases List.mem_cons.mp h1 with h2 | h2
        · exact ⟨_, "linkedin.com/in/acme", h2, rfl⟩
        · cases h2)
  refine happ.trans ?_
  rfl

/-!
## Claim C4 — crawl schema tolerance (`results` vs legacy `pages`)
-/

/-- C4: for every page list `P`, the crawl-stage parser stores the same
`crawl_results` (namely `P`) whether the successful response carries
`P` under `results` or under the legacy `pages` field, in the dict
shape as well as in the JSON-encoded-string shape. -/
theorem c4_crawl_schema_tolerance (jl : JDecoder) (st : WfState)
    (P : List Json) (s1 s2 : String)
    (h1 : jl s1 = .ok (.obj [("success", .bool true), ("results", .arr P)]))
    (h2 : jl s2 = .ok (.obj [("success", .bool true), ("pages", .arr P)])) :
    crawl_parse jl (.obj [("success", .bool true), ("results", .arr P)]) st =
      { st with crawl_results := .arr P } ∧
    crawl_parse jl (.obj [("success", .bool true), ("pages", .arr P)]) st =
      { st with crawl_results := .arr P } ∧
    crawl_parse jl (.str s1) st = { st with crawl_results := .arr P } ∧
    crawl_parse jl (.str s2) st = { st with crawl_results := .arr P } := by
  refine ⟨rfl, rfl, ?_, ?_⟩
  · simp [crawl_parse, h1, jgetD, jlookup, hasKeyL, Json.truthy]
  · simp [crawl_parse, h2, jgetD, jlookup, hasKeyL, Json.truthy]

/-- Witness for `c4_crawl_schema_tolerance` at the decoder `jlFix` and
its two symbolic response lines. -/
theorem c4_crawl_schema_tolerance_witness :
    jlFix "resp-results" = .ok (.obj [("success", .bool true), ("results", .arr [pageU1])]) ∧
    jlFix "resp-pages" = .ok (.obj [("success", .bool true), ("pages", .arr [pageU1])]) ∧
    crawl_parse jlFix (.str "resp-results") initWf = { initWf with crawl_results := .arr [pageU1] } ∧
    crawl_parse jlFix (.str "resp-pages") initWf = { initWf with crawl_results := .arr [pageU1] } :=
  ⟨rfl, rfl,
   (c4_crawl_schema_tolerance jlFix initWf [pageU1] "resp-results" "resp-pages" rfl rfl).2.2.1,
   (c4_crawl_schema_tolerance jlFix initWf [pageU1] "resp-results" "resp-pages" rfl rfl).2.2.2⟩

/-!
## Workflow structure lemmas
-/

/-- Key lookup in a result dict (`none` for non-dicts / absent keys). -/
def Json.getKey (j : Json) (k : String) : Option Json :=
  match j with
  | .obj kvs => jlookup k kvs
  | _ => none

/-- `execute_search`'s parser only ever writes `search_results`. -/
theorem search_parse_shape (jl : JDecoder) (r : Json) (st : WfState) :
    ∃ sr, search_parse jl r st = { st with search_results := sr } := by
  unfold search_parse
  repeat' split
  all_goals exact ⟨_, rfl⟩

/-- `execute_crawl`'s parser only ever writes `crawl_results`. -/
theorem crawl_parse_shape (jl : JDecoder) (r : Json) (st : WfState) :
    ∃ cr, crawl_parse jl r st = { st with crawl_results := cr } := by
  unfold crawl_parse
  repeat' split
  all_goals exact ⟨_, rfl⟩

/-- A successful `execute_crawl` leaves every field except
`crawl_results` unchanged. -/
theorem execute_crawl_shape (jl : JDecoder) (oracle : Oracle)
    (urls : List String) (st : WfState) (out : WfState × Json × List String)
    (h : execute_crawl jl oracle urls st = .ok out) :
    ∃ cr, out.1 = { st with crawl_results := cr } := by
  unfold execute_crawl at h
  split at h
  · cases h
    exact ⟨st.crawl_results, rfl⟩
  · split at h
    · cases h
    · rename_i r heq
      cases h
      simpa using crawl_parse_shape jl r st

/-- The integer / boolean test behind `match_count > 0`. -/
def matchCountPos : Json → Bool
  | .num n => decide (0 < n)
  | .bool b => b
  | _ => false

/-- When `match_count > 0` evaluates without a `TypeError`, its value
is the boolean `matchCountPos`. -/
theorem pyGtZero_ok (mc v : Json) (h : pyGtZero mc = .ok v) :
    v = .bool (matchCountPos mc) := by
  cases mc <;> simp [pyGtZero, matchCountPos] at h ⊢ <;> exact h.symm

/-!
## Claim C1 — the success flag
-/

/-- In the assembled `WorkflowResult`, when `linkedin_found` holds a
boolean, the `success` entry is `true` exactly when that boolean is
`true` and `match_count` is positive. -/
theorem assemble_success_key (company : String) (web : Option String)
    (a b v : Json) (st : WfState) (res : Json) (bb : Bool)
    (hok : assemble company web a b v st = .ok res)
    (hlf : st.linkedin_found = .bool bb) :
    (res.getKey "success" = some (.bool true)) ↔
      (bb = true ∧ matchCountPos st.match_count = true) := by
  unfold assemble pySuccess at hok
  rw [hlf] at hok
  cases bb with
  | false =>
    simp only [Json.truthy, Bool.false_eq_true, if_false] at hok
    cases hok
    simp [Json.getKey, jlookup]
  | true =>
    simp only [Json.truthy, if_true] at hok
    cases hgt : pyGtZero st.match_count with
    | error e => rw [hgt] at hok; cases hok
    | ok s =>
      rw [hgt] at hok
      cases hok
      have hs := pyGtZero_ok st.match_count s hgt
      subst hs
      simp [Json.getKey, jlookup]

/-- C1: whenever `run_complete_workflow` returns, and the `linkedin`
flag it extracted from the verify stage is a boolean, the `success`
entry of the returned `WorkflowResult` is `true` exactly when that flag
is `true` and the extracted match count is strictly positive — in every
other case (including skipped or empty verify stages, which leave the
flag at its reset value `False`) it is `false`. -/
theorem c1_success_iff (jl : JDecoder) (oracle : Oracle) (company : String)
    (web : Option String) (st0 : WfState) (res : Json) (st : WfState)
    (tr : List String) (bb : Bool)
    (hrun : run_complete_workflow jl oracle company web st0 = .ok (res, st, tr))
    (hlf : st.linkedin_found = .bool bb) :
    (res.getKey "success" = some (.bool true)) ↔
      (bb = true ∧ matchCountPos st.match_count = true) := by
  unfold run_complete_workflow at hrun
  dsimp only at hrun
  repeat' split at hrun
  all_goals try exact Except.noConfusion hrun
  rename_i st2out st3out hassemble
  injection hrun with hxy
  injection hxy with h1 h23
  injection h23 with h2 h3
  subst h1
  subst h2
  exact assemble_success_key _ _ _ _ _ _ _ _ hassemble hlf

/-!
## Concrete workflow scenarios
-/

/-- A successful search response with one LinkedIn company url. -/
def srOk : Json :=
  .obj [("success", .bool true),
        ("results", .arr [.obj [("url", .str "https://linkedin.com/company/acme")]])]

/-- A successful crawl response with one page. -/
def crOk : Json := .obj [("success", .bool true), ("results", .arr [pageU1])]

/-- A successful verify response in the `results` shape with a positive
match. -/
def vrOk : Json :=
  .obj [("success", .bool true), ("results", .arr []),
        ("linkedin", .bool true), ("match_count", .num 1)]

/-- End-to-end successful responses. -/
def oracleOk : Oracle := ⟨.ok srOk, .ok crOk, .ok vrOk⟩

/-- The `WorkflowResult` of the `oracleOk` run. -/
def resOk1 : Json :=
  .obj [("company_name", .str "Acme"),
        ("search", .obj [("search_results",
          .arr [.obj [("url", .str "https://linkedin.com/company/acme")]])]),
        ("crawl", .obj [("crawl_results", .arr [pageU1])]),
        ("verify", .obj [("verify_results", .arr [])]),
        ("success", .bool true), ("linkedin_found", .bool true),
        ("linkedin_url", .null), ("match_count", .num 1)]

/-- The workflow state after the `oracleOk` run. -/
def stOk1 : WfState :=
  { search_results := .arr [.obj [("url", .str "https://linkedin.com/company/acme")]]
    crawl_results := .arr [pageU1]
    verify_results := .arr []
    best_match := .null, linkedin_url := .null
    linkedin_found := .bool true, match_count := .num 1 }

/-- Witness for `c1_success_iff`: a full concrete run in which the
verify stage reports `linkedin = true` and `match_count = 1`, so the
`success` entry is `true`. -/
theorem c1_success_iff_witness :
    run_complete_workflow jl0 oracleOk "Acme" none initWf =
      .ok (resOk1, stOk1,
        ["search_company", "crawl_multiple_pages", "verify_multiple_contents"]) ∧
    stOk1.linkedin_found = .bool true ∧
    (resOk1.getKey "success" = some (.bool true) ↔
      (true = true ∧ matchCountPos stOk1.match_count = true)) :=
  ⟨rfl, rfl,
   c1_success_iff jl0 oracleOk "Acme" none initWf resOk1 stOk1
     ["search_company", "crawl_multiple_pages", "verify_multiple_contents"] true rfl rfl⟩

/-!
## Claim C10 — legacy `verifications` responses set no aggregates
-/

/-- The verify response takes the legacy `verifications` branch of
`execute_verify` (main.py 343 / 363): a successful response carrying
`verifications` but no `results`, in the dict shape (key membership)
or in the string shape (truthy `success`). -/
def verifyLegacyBranch (jl : JDecoder) : Json → Bool
  | .obj kvs =>
    hasKeyL kvs "success" && !hasKeyL kvs "results" && hasKeyL kvs "verifications"
  | .str s =>
    match jl s with
    | .ok (.obj kvs) =>
      (jgetD kvs "success" .null).truthy && !hasKeyL kvs "results"
        && hasKeyL kvs "verifications"
    | _ => false
  | _ => false

/-- On the legacy branch, `verify_parse` writes only `verify_results`. -/
theorem verify_parse_legacy (jl : JDecoder) (r : Json) (st : WfState)
    (h : verifyLegacyBranch jl r = true) :
    ∃ vr, verify_parse jl r st = { st with verify_results := vr } := by
  cases r with
  | obj kvs =>
    simp only [verifyLegacyBranch, Bool.and_eq_true, Bool.not_eq_eq_eq_not,
      Bool.not_true] at h
    obtain ⟨⟨h1, h2⟩, h3⟩ := h
    simp [verify_parse, h1, h2, h3]
  | str s =>
    cases hj : jl s with
    | error e => simp [verifyLegacyBranch, hj] at h
    | ok p =>
      cases p with
      | obj kvs =>
        simp only [verifyLegacyBranch, hj, Bool.and_eq_true,
          Bool.not_eq_eq_eq_not, Bool.not_true] at h
        obtain ⟨⟨h1, h2⟩, h3⟩ := h
        simp [verify_parse, hj, h1, h2, h3]
      | null => simp [verifyLegacyBranch, hj] at h
      | bool b => simp [verifyLegacyBranch, hj] at h
      | num n => simp [verifyLegacyBranch, hj] at h
      | str s2 => simp [verifyLegacyBranch, hj] at h
      | arr xs => simp [verifyLegacyBranch, hj] at h
  | null => simp [verifyLegacyBranch] at h
  | bool b => simp [verifyLegacyBranch] at h
  | num n => simp [verifyLegacyBranch] at h
  | arr xs => simp [verifyLegacyBranch] at h

/-- A successful `execute_verify` whose possible tool response takes
the legacy branch writes only `verify_results`. -/
theorem execute_verify_legacy_shape (jl : JDecoder) (oracle : Oracle)
    (st : WfState) (out : WfState × Json × List String)
    (h : execute_verify jl oracle st = .ok out)
    (hleg : ∀ r, oracle.verify = Except.ok r → verifyLegacyBranch jl r = true) :
    ∃ vr, out.1 = { st with verify_results := vr } := by
  unfold execute_verify at h
  split at h
  · cases h
    exact ⟨st.verify_results, rfl⟩
  · split at h
    · cases h
    · split at h
      · cases h
        exact ⟨st.verify_results, rfl⟩
      · split at h
        · cases h
        · rename_i r heq
          cases h
          obtain ⟨vr, hv⟩ := verify_parse_legacy jl r st (hleg r heq)
          exact ⟨vr, by simpa using hv⟩

/-- When the aggregates still hold their reset values, the assembled
result is exactly the five base keys (plus `official_website`), with
`success = false`. -/
theorem assemble_defaults (company : String) (web : Option String)
    (a b v : Json) (st : WfState) (res : Json)
    (hlf : st.linkedin_found = .bool false) (hbm : st.best_match = .null)
    (hok : assemble company web a b v st = .ok res) :
    res = .obj
      ([("company_name", .str company), ("search", a), ("crawl", b),
        ("verify", v), ("success", .bool false)] ++ webPart web) := by
  unfold assemble pySuccess at hok
  rw [hlf, hbm] at hok
  simp only [Json.truthy, Bool.false_eq_true, if_false, List.append_nil] at hok
  exact (Except.ok.inj hok).symm

/-- C10: whenever `run_complete_workflow` returns and the verify
response (if the verify tool was reached at all) takes the legacy
`verifications` branch — in either the dict or the string shape — the
workflow aggregates keep their reset values (`best_match = None`,
`linkedin_found = False`, `match_count = 0`), the returned
`WorkflowResult` has `success = false`, and it contains none of the
keys `linkedin_found`, `linkedin_url`, `match_count`, `best_match`,
even when the verifications list is non-empty. -/
theorem c10_legacy_no_aggregates (jl : JDecoder) (oracle : Oracle)
    (company : String) (web : Option String) (st0 : WfState)
    (res : Json) (st : WfState) (tr : List String)
    (hrun : run_complete_workflow jl oracle company web st0 = .ok (res, st, tr))
    (hleg : ∀ r, oracle.verify = Except.ok r → verifyLegacyBranch jl r = true) :
    st.best_match = .null ∧ st.linkedin_found = .bool false ∧
    st.match_count = .num 0 ∧
    res.getKey "success" = some (.bool false) ∧
    res.getKey "linkedin_found" = none ∧
    res.getKey "linkedin_url" = none ∧
    res.getKey "match_count" = none ∧
    res.getKey "best_match" = none := by
  unfold run_complete_workflow at hrun
  dsimp only at hrun
  repeat' split at hrun
  all_goals try exact Except.noConfusion hrun
  rename_i xa r1 hsearch xb urls hextract xc st2v cret tr2v hcrawl xd st3v vret
    tr3v hverify xe resv hassemble
  injection hrun with hxy
  injection hxy with h1 h23
  injection h23 with h2 h3
  subst h1
  subst h2
  obtain ⟨sr, h1s⟩ := search_parse_shape jl r1 (resetAggr st0)
  obtain ⟨cr, h2s⟩ :=
    execute_crawl_shape jl oracle urls (search_parse jl r1 (resetAggr st0))
      (st2v, cret, tr2v) hcrawl
  obtain ⟨vr, h3s⟩ :=
    execute_verify_legacy_shape jl oracle st2v (st3v, vret, tr3v) hverify hleg
  simp only at h2s h3s
  have hbm : st3v.best_match = .null := by
    rw [h3s, h2s, h1s]; rfl
  have hlf : st3v.linkedin_found = .bool false := by
    rw [h3s, h2s, h1s]; rfl
  have hmc : st3v.match_count = .num 0 := by
    rw [h3s, h2s, h1s]; rfl
  have hres := assemble_defaults company web _ _ _ st3v _ hlf hbm hassemble
  subst hres
  refine ⟨hbm, hlf, hmc, ?_, ?_, ?_, ?_, ?_⟩ <;>
    cases web <;> simp [Json.getKey, jlookup, webPart]

/-- The legacy verify response used by the C10 witness. -/
def vrLegacy : Json :=
  .obj [("success", .bool true), ("verifications", .arr [.obj [("url", .str "u1")]])]

/-- Responses whose verify stage answers in the legacy shape. -/
def oracleLegacy : Oracle := ⟨.ok srOk, .ok crOk, .ok vrLegacy⟩

/-- The `WorkflowResult` of the `oracleLegacy` run: a non-empty
verifications list, yet no aggregate keys and `success = false`. -/
def resLegacy : Json :=
  .obj [("company_name", .str "Acme"),
        ("search", .obj [("search_results",
          .arr [.obj [("url", .str "https://linkedin.com/company/acme")]])]),
        ("crawl", .obj [("crawl_results", .arr [pageU1])]),
        ("verify", .obj [("verify_results", .arr [.obj [("url", .str "u1")]])]),
        ("success", .bool false)]

/-- The workflow state after the `oracleLegacy` run. -/
def stLegacy : WfState :=
  { search_results := .arr [.obj [("url", .str "https://linkedin.com/company/acme")]]
    crawl_results := .arr [pageU1]
    verify_results := .arr [.obj [("url", .str "u1")]]
    best_match := .null, linkedin_url := .null
    linkedin_found := .bool false, match_count := .num 0 }

/-- Witness for `c10_legacy_no_aggregates` at the `oracleLegacy` run. -/
theorem c10_legacy_no_aggregates_witness :
    run_complete_workflow jl0 oracleLegacy "Acme" none initWf =
      .ok (resLegacy, stLegacy,
        ["search_company", "crawl_multiple_pages", "verify_multiple_contents"]) ∧
    (stLegacy.linkedin_found = .bool false ∧
     resLegacy.getKey "success" = some (.bool false) ∧
     resLegacy.getKey "linkedin_found" = none) :=
  ⟨rfl,
   (by
      have h := c10_legacy_no_aggregates jl0 oracleLegacy "Acme" none initWf
        resLegacy stLegacy
        ["search_company", "crawl_multiple_pages", "verify_multiple_contents"]
        rfl (by intro r hr; cases hr; rfl)
      exact ⟨h.2.1, h.2.2.2.1, h.2.2.2.2.1⟩)⟩

/-!
## Claim C2 — exception boundaries of the workflow
-/

/-- A search response whose `results` entries are not dicts. -/
def srBad : Json := .obj [("success", .bool true), ("results", .arr [.num 42])]

/-- Responses whose search stage answers with non-dict entries. -/
def oracleBad : Oracle := ⟨.ok srBad, .ok .null, .ok .null⟩

/-- Responses whose search-stage `call_tool` itself raises. -/
def oracleErr : Oracle := ⟨.error (.exception "boom"), .ok .null, .ok .null⟩

/-- C2 counterexample: with `call_tool` succeeding at every stage, the
interpretation of a well-formed search response whose `results` entries
are not mappings makes `run_complete_workflow` raise an uncaught
`AttributeError` (from `result.get("url", "")` inside
`extract_linkedin_urls`, which runs outside every `try` block) — the
workflow does not always return a `WorkflowResult`. -/
theorem c2_counterexample :
    run_complete_workflow jl0 oracleBad "Acme" none initWf =
      .error (.attributeError "object has no attribute get") := rfl

/-- C2 amended: exceptions raised while interpreting a tool response
inside a stage's `try/except` block are caught and leave that stage's
result empty, and an error raised by `call_tool` itself propagates; but
the workflow can still raise outside those blocks — in
`extract_linkedin_urls`, in the verify-stage page filter, and in the
final `match_count > 0` comparison — so it returns a `WorkflowResult`
(never raises) only when those three interpretation steps succeed. -/
theorem c2_exception_boundaries (jl : JDecoder) (oracle : Oracle)
    (company : String) (web : Option String) (st0 : WfState) (sr : Json)
    (urls : List String) (o2 o3 : WfState × Json × List String) (sv : Json) :
    (oracle.search = .ok sr →
     extract_linkedin_urls (search_parse jl sr (resetAggr st0)).search_results = .ok urls →
     execute_crawl jl oracle urls (search_parse jl sr (resetAggr st0)) = .ok o2 →
     execute_verify jl oracle o2.1 = .ok o3 →
     pySuccess o3.1.linkedin_found o3.1.match_count = .ok sv →
     ∃ out, run_complete_workflow jl oracle company web st0 = .ok out) ∧
    (∀ (oracle2 : Oracle) (e : PyErr), oracle2.search = .error e →
     run_complete_workflow jl oracle2 company web st0 = .error e) := by
  constructor
  · obtain ⟨st2v, cret, tr2v⟩ := o2
    obtain ⟨st3v, vret, tr3v⟩ := o3
    intro h1 h2 h3 h4 h5
    simp only at h5
    unfold run_complete_workflow assemble
    dsimp only
    simp only [h1, h2, h3, h4, h5]
    exact ⟨_, rfl⟩
  · intro oracle2 e he
    unfold run_complete_workflow
    dsimp only
    simp only [he]

/-- The workflow state after search and crawl in the `oracleOk` run. -/
def stMid : WfState :=
  { search_results := .arr [.obj [("url", .str "https://linkedin.com/company/acme")]]
    crawl_results := .arr [pageU1]
    verify_results := .arr []
    best_match := .null, linkedin_url := .null
    linkedin_found := .bool false, match_count := .num 0 }

/-- Witness for `c2_exception_boundaries`: the `oracleOk` run satisfies
every interpretation hypothesis and returns, while `oracleErr`'s
transport failure propagates. -/
theorem c2_exception_boundaries_witness :
    (oracleOk.search = .ok srOk ∧
     extract_linkedin_urls (search_parse jl0 srOk (resetAggr initWf)).search_results =
       .ok ["https://linkedin.com/company/acme"] ∧
     execute_crawl jl0 oracleOk ["https://linkedin.com/company/acme"]
       (search_parse jl0 srOk (resetAggr initWf)) =
       .ok (stMid, .obj [("crawl_results", .arr [pageU1])], ["crawl_multiple_pages"]) ∧
     execute_verify jl0 oracleOk stMid =
       .ok (stOk1, .obj [("verify_results", .arr [])], ["verify_multiple_contents"]) ∧
     pySuccess stOk1.linkedin_found stOk1.match_count = .ok (.bool true)) ∧
    (∃ out, run_complete_workflow jl0 oracleOk "Acme" none initWf = .ok out) ∧
    run_complete_workflow jl0 oracleErr "Acme" none initWf =
      .error (.exception "boom") :=
  ⟨⟨rfl, rfl, rfl, rfl, rfl⟩,
   (c2_exception_boundaries jl0 oracleOk "Acme" none initWf srOk
      ["https://linkedin.com/company/acme"]
      (stMid, .obj [("crawl_results", .arr [pageU1])], ["crawl_multiple_pages"])
      (stOk1, .obj [("verify_results", .arr [])], ["verify_multiple_contents"])
      (.bool true)).1 rfl rfl rfl rfl rfl,
   (c2_exception_boundaries jl0 oracleOk "Acme" none initWf srOk
      ["https://linkedin.com/company/acme"]
      (stMid, .obj [("crawl_results", .arr [pageU1])], ["crawl_multiple_pages"])
      (stOk1, .obj [("verify_results", .arr [])], ["verify_multiple_contents"])
      (.bool true)).2 oracleErr (.exception "boom") rfl⟩

/-!
## Claim C3 — empty search short-circuits crawl and verify
-/

/-- A successful search response with an empty result list. -/
def srEmpty : Json := .obj [("success", .bool true), ("results", .arr [])]

/-- Second-run responses: empty search, legacy-irrelevant crawl, and a
verify response reporting a match. -/
def oracleRun2 : Oracle := ⟨.ok srEmpty, .ok .null, .ok vrOk⟩

/-- The `WorkflowResult` of the second run in the C3 counterexample. -/
def resRun2 : Json :=
  .obj [("company_name", .str "Acme"),
        ("search", .obj [("search_results", .arr [])]),
        ("crawl", .obj [("crawl_results", .arr [])]),
        ("verify", .obj [("verify_results", .arr [])]),
        ("success", .bool true), ("linkedin_found", .bool true),
        ("linkedin_url", .null), ("match_count", .num 1)]

/-- The workflow state after the second run in the C3 counterexample. -/
def stRun2 : WfState :=
  { search_results := .arr []
    crawl_results := .arr [pageU1]
    verify_results := .arr []
    best_match := .null, linkedin_url := .null
    linkedin_found := .bool true, match_count := .num 1 }

/-- C3 counterexample: on a workflow instance that already ran once
(the `oracleOk` run leaves `crawl_results` non-empty, since
`run_complete_workflow` never resets the stage accumulators), a second
run whose search stage yields zero results still issues the
`verify_multiple_contents` tool call — its trace is not just the search
call — and even returns `success = true`. -/
theorem c3_counterexample :
    run_complete_workflow jl0 oracleOk "Acme" none initWf =
      .ok (resOk1, stOk1,
        ["search_company", "crawl_multiple_pages", "verify_multiple_contents"]) ∧
    run_complete_workflow jl0 oracleRun2 "Acme" none stOk1 =
      .ok (resRun2, stRun2, ["search_company", "verify_multiple_contents"]) ∧
    resRun2.getKey "success" = some (.bool true) :=
  ⟨rfl, rfl, rfl⟩

/-- C3 amended: on a run starting from a state whose accumulated
`crawl_results` is empty (in particular the first run on a fresh
workflow instance), if the search stage yields zero results then the
crawl and verify tools are not called (the trace holds only
`search_company`), all three result lists in the `WorkflowResult` are
empty, and `success` is `false`. -/
theorem c3_empty_search_short_circuit (jl : JDecoder) (oracle : Oracle)
    (company : String) (web : Option String) (st0 : WfState) (sr : Json)
    (hs : oracle.search = .ok sr)
    (hzero : (search_parse jl sr (resetAggr st0)).search_results = .arr [])
    (hcr : st0.crawl_results = .arr []) :
    run_complete_workflow jl oracle company web st0 =
      .ok (.obj ([("company_name", .str company),
                  ("search", .obj [("search_results", .arr [])]),
                  ("crawl", .obj [("crawl_results", .arr [])]),
                  ("verify", .obj [("verify_results", .arr [])]),
                  ("success", .bool false)] ++ webPart web),
           search_parse jl sr (resetAggr st0), ["search_company"]) := by
  obtain ⟨sr2, hsh⟩ := search_parse_shape jl sr (resetAggr st0)
  have hc1 : (search_parse jl sr (resetAggr st0)).crawl_results = .arr [] := by
    rw [hsh]
    simpa [resetAggr] using hcr
  have hlf1 : (search_parse jl sr (resetAggr st0)).linkedin_found = .bool false := by
    rw [hsh]; rfl
  have hmc1 : (search_parse jl sr (resetAggr st0)).match_count = .num 0 := by
    rw [hsh]; rfl
  have hbm1 : (search_parse jl sr (resetAggr st0)).best_match = .null := by
    rw [hsh]; rfl
  unfold run_complete_workflow execute_crawl execute_verify assemble pySuccess
  dsimp only
  simp only [hs, hzero, hc1, hlf1, hmc1, hbm1]
  simp [extract_linkedin_urls, pyIter, bind, Except.bind, extractGo, Json.truthy,
    hc1, hlf1, hmc1, hbm1, webPart]

/-- Witness for `c3_empty_search_short_circuit`: a fresh instance run
against `oracleRun2` (empty search results) performs only the search
call and returns all-empty lists with `success = false`. -/
theorem c3_empty_search_short_circuit_witness :
    oracleRun2.search = .ok srEmpty ∧
    (search_parse jl0 srEmpty (resetAggr initWf)).search_results = .arr [] ∧
    initWf.crawl_results = .arr [] ∧
    run_complete_workflow jl0 oracleRun2 "Acme" none initWf =
      .ok (.obj ([("company_name", .str "Acme"),
                  ("search", .obj [("search_results", .arr [])]),
                  ("crawl", .obj [("crawl_results", .arr [])]),
                  ("verify", .obj [("verify_results", .arr [])]),
                  ("success", .bool false)] ++ webPart none),
           search_parse jl0 srEmpty (resetAggr initWf), ["search_company"]) :=
  ⟨rfl, rfl, rfl,
   c3_empty_search_short_circuit jl0 oracleRun2 "Acme" none initWf srEmpty rfl rfl rfl⟩
